import Mathlib

/-!
Verification development for the WFESimulation visualization layer
(`src/visualization/plot_simulation.py`, `src/visualization/plot_sensitivity.py`,
`src/visualization/interactive_dashboard.py`).

The Python scripts are shallowly embedded: JSON values become an inductive
type, pandas DataFrames become a record of column names and rows, file paths
become (directory, name) pairs mirroring `pathlib.Path` (`parent` / `name`),
and each script entry point becomes a pure function from the parsed input to
an outcome record listing the exit status and the files it writes.  Numeric
data is modelled by `ℚ`.  Calls into external charting/numeric libraries
(pandas `corr`, matplotlib `bar`, plotly `plot`) are modelled only to the
extent the claims require, with doc comments marking each such point.
-/

/-- JSON values as produced by Python's `json.load`: null, booleans, numbers,
strings, arrays and objects (association lists of string keys). -/
inductive Json where
  | jnull
  | jbool (b : Bool)
  | jnum (q : ℚ)
  | jstr (s : String)
  | jarr (elems : List Json)
  | jobj (fields : List (String × Json))

/-- Lookup of a key in a parsed JSON object.  Python's `json.load` builds a
`dict`, in which a duplicated key keeps the value of its last occurrence, so
the fold keeps the last binding. -/
def jlookup (kvs : List (String × Json)) (k : String) : Option Json :=
  kvs.foldl (fun acc kv => if kv.1 = k then some kv.2 else acc) none

/-- ASCII lowercasing of a string, modelling Python's `str.lower()` on the
file suffixes the scripts compare. -/
def strLower (s : String) : String :=
  String.mk (s.toList.map Char.toLower)

/-- Filesystem path, modelled as the pair `pathlib.Path` exposes as
`parent` and `name`.  Aliasing between distinct strings that denote the same
file is outside the model. -/
structure FsPath where
  dir : String
  name : String
deriving DecidableEq, Repr

/-- Characters of a path name after the last slash (the whole name when no
slash occurs), as `pathlib` takes the final component before computing a
suffix. -/
def afterLastSlash (l : List Char) : List Char :=
  l.foldl (fun acc c => if c == '/' then [] else acc ++ [c]) []

/-- Scan the reversed name, collecting characters until the last dot of the
original name; the suffix is empty when no dot occurs, when the dot starts
the name (hidden files), or when it ends it, exactly as in
`pathlib.PurePath.suffix` (`0 < i < len(name) - 1`). -/
def suffixAux : List Char → List Char → List Char
  | _, [] => []
  | acc, c :: cs =>
    if c = '.' then (if cs.isEmpty || acc.isEmpty then [] else c :: acc)
    else suffixAux (c :: acc) cs

/-- Suffix of a file name, following `pathlib.PurePath.suffix`: the segment
from the last dot to the end, empty when there is no dot or when the dot
starts or ends the name (hidden files such as `.json` have no suffix). -/
def suffixOfName (n : List Char) : List Char :=
  suffixAux [] n.reverse

/-- Suffix of a path string, taken on its final component as `pathlib` does. -/
def pathSuffix (p : String) : String :=
  String.mk (suffixOfName (afterLastSlash p.toList))

/-- Suffix of an `FsPath`, computed from its name component. -/
def FsPath.suffix (p : FsPath) : String :=
  String.mk (suffixOfName p.name.toList)

/-- Stem of a file name (`pathlib.PurePath.stem`): the name with its suffix
removed. -/
def stemOfName (n : String) : String :=
  String.mk (n.toList.take (n.toList.length - (suffixOfName n.toList).length))

/-- Tabular data, modelling the pandas DataFrame as far as the scripts
inspect it: an ordered list of column names plus the underlying rows. -/
structure Frame where
  cols : List String
  rows : List Json

/-- Keys of a JSON record row, in order; non-object rows contribute no
column names (the scripts only feed lists of records to `pd.DataFrame`). -/
def recordKeys : Json → List String
  | Json.jobj kvs => kvs.map (fun kv => kv.1)
  | _ => []

/-- Accumulate new column names in first-seen order, as
`pd.DataFrame(list_of_dicts)` does when it unions the row keys. -/
def addNewKeys (acc : List String) (ks : List String) : List String :=
  ks.foldl (fun a k => if k ∈ a then a else a ++ [k]) acc

/-- Column names `pd.DataFrame` infers for a list of record rows. -/
def dfColsOfRows (rows : List Json) : List String :=
  rows.foldl (fun a r => addNewKeys a (recordKeys r)) []

/-- Embedding of `load_simulation_data` (plot_simulation.py lines 29-51).
The JSON branch receives the parsed top-level object `jsonTop` (the claims
concern object-topped files); the CSV branch receives the frame `pd.read_csv`
would build as `csvFrame`.  The outer `none` marks the one case outside the
claims' scope: a present `TimeSeries` key whose value is not a list, where
`pd.DataFrame` builds a column frame or raises instead of a row table. -/
def loadSimulationData (input : FsPath) (jsonTop : List (String × Json))
    (csvFrame : Frame) : Option (Option Json × Option Frame) :=
  let s := strLower input.suffix
  if s = ".json" then
    match jlookup jsonTop "TimeSeries" with
    | some (Json.jarr rows) =>
        some (some (Json.jobj jsonTop), some ⟨dfColsOfRows rows, rows⟩)
    | some _ => none
    | none => some (none, none)
  else if s = ".csv" then
    some (none, some csvFrame)
  else
    some (none, none)

/-- Outcome of one script run: the exit status (`some 1` for `sys.exit(1)`,
`none` for normal completion) and the plot files written, in order. -/
structure RunOutcome where
  exitCode : Option Nat
  writes : List FsPath
deriving DecidableEq, Repr

/-- Workforce-column detection of `plot_workforce_composition`
(plot_simulation.py lines 57-67): the chart is saved exactly when
`Workforce.Humans.Total` is a column or the CSV fallback `TotalHumans` is;
otherwise the function returns before `savefig`. -/
def humansFound (cols : List String) : Bool :=
  ("Workforce.Humans.Total" ∈ cols) || ("TotalHumans" ∈ cols)

/-- File names a full (or dashboard-only) `plot_simulation.py` run saves, in
call order (main, lines 323-341), when every routine's frame and report
accesses succeed (`plotSimulationFilesChecked` verifies that):
`plot_workforce_composition` saves only when workforce columns are found,
`plot_revenue_and_productivity` and `plot_cost_analysis` then reach
`savefig`, `plot_equilibrium_analysis` returns without saving when the JSON
report `data` is absent (CSV input), and `create_summary_dashboard`
saves. -/
def plotSimulationFiles (dataPresent : Bool) (cols : List String)
    (dashOnly : Bool) : List String :=
  if dashOnly then ["simulation_dashboard.png"]
  else
    (if humansFound cols then ["workforce_composition.png"] else []) ++
    ["revenue_productivity.png", "cost_analysis.png"] ++
    (if dataPresent then ["equilibrium_analysis.png"] else []) ++
    ["simulation_dashboard.png"]

/-- AI-agents column paired with the chosen humans column
(plot_simulation.py lines 58-64): the nested JSON name when
`Workforce.Humans.Total` is a column, the CSV fallback otherwise. -/
def aiColOf (cols : List String) : String :=
  if "Workforce.Humans.Total" ∈ cols then "Workforce.AIAgents.Total"
  else "TotalAIAgents"

/-- Frame accesses of `plot_workforce_composition` after its guard passes
(lines 70-71, 79-80): `df['TimeStep']` and the paired AI column are indexed
unconditionally, raising `KeyError` when absent. -/
def wcAccessOk (cols : List String) : Bool :=
  !humansFound cols || ("TimeStep" ∈ cols && aiColOf cols ∈ cols)

/-- Frame accesses of `plot_revenue_and_productivity` (lines 97-108):
`df['TimeStep']` is indexed when either data column is present. -/
def rpAccessOk (cols : List String) : Bool :=
  !("RevenueOutput" ∈ cols || "TotalProductivity" ∈ cols)
    || "TimeStep" ∈ cols

/-- Frame accesses of `plot_cost_analysis` (lines 123-138):
`df['TimeStep']` is indexed when both cost columns are present. -/
def caAccessOk (cols : List String) : Bool :=
  !("TotalCost" ∈ cols && "AvailableBudget" ∈ cols) || "TimeStep" ∈ cols

/-- Frame accesses of `create_summary_dashboard` (lines 209-247):
`df['TimeStep']` and the paired AI column are indexed when the respective
guard column is present. -/
def dashFrameAccessOk (cols : List String) : Bool :=
  (!humansFound cols || ("TimeStep" ∈ cols && aiColOf cols ∈ cols)) &&
  (!("RevenueOutput" ∈ cols) || "TimeStep" ∈ cols) &&
  (!("TotalCost" ∈ cols) || "TimeStep" ∈ cols) &&
  (!("TotalProductivity" ∈ cols) || "TimeStep" ∈ cols)

/-- Shape required of a workforce side subscripted at `['Total']`
(plot_simulation.py lines 169, 266-267): an object carrying a numeric
`Total`. -/
def totalNumOk (v : Json) : Bool :=
  match v with
  | Json.jobj m =>
      (match jlookup m "Total" with
       | some (Json.jnum _) => true
       | _ => false)
  | _ => false

/-- Shape required of the `Humans` value: lines 178-181 test
`'ByExperience' in workforce['Humans']` and, when present, iterate its
keys and numeric values as bar labels and heights. -/
def humansOk (v : Json) : Bool :=
  match v with
  | Json.jobj hv =>
      (match jlookup hv "ByExperience" with
       | none => true
       | some (Json.jobj ex) =>
           ex.all (fun kv =>
             match kv.2 with
             | Json.jnum _ => true
             | _ => false)
       | some _ => false)
  | _ => false

/-- Accesses into the `Workforce` object (lines 168-187, 265-274): with
both `Humans` and `AIAgents` present their `Total` fields are read; with
`Humans` present at all, its value is subscripted by the `ByExperience`
test. -/
def workforceOk (wf : List (String × Json)) : Bool :=
  match jlookup wf "Humans", jlookup wf "AIAgents" with
  | none, _ => true
  | some hv, none => humansOk hv
  | some hv, some av => humansOk hv && totalNumOk hv && totalNumOk av

/-- Accesses into the `EquilibriumState` object (lines 166-187, 263-290):
a present `Workforce` must be an object satisfying `workforceOk`, and a
present `RevenueOutput` is formatted numerically on the dashboard. -/
def equilibriumStateOk (es : Json) : Bool :=
  match es with
  | Json.jobj m =>
      (match jlookup m "Workforce" with
       | none => true
       | some (Json.jobj wf) => workforceOk wf
       | some _ => false) &&
      (match jlookup m "RevenueOutput" with
       | none => true
       | some (Json.jnum _) => true
       | some _ => false)
  | _ => false

/-- Report-data accesses of `plot_equilibrium_analysis` and
`create_summary_dashboard` (lines 159-194, 250-295): the two bar-chart
values must be numeric when present and a present `EquilibriumState` must
be an object with the shapes the routines subscript.  `none` (no JSON
report) performs no access. -/
def reportDataOk : Option Json → Bool
  | none => true
  | some (Json.jobj kvs) =>
      (match jlookup kvs "TimeToEquilibrium" with
       | none => true
       | some (Json.jnum _) => true
       | some _ => false) &&
      (match jlookup kvs "TotalCatastrophicFailures" with
       | none => true
       | some (Json.jnum _) => true
       | some _ => false) &&
      (match jlookup kvs "EquilibriumState" with
       | none => true
       | some es => equilibriumStateOk es)
  | some _ => false

/-- All access conditions of a full run, in call order. -/
def fullRunAccessOk (data : Option Json) (cols : List String) : Bool :=
  wcAccessOk cols && rpAccessOk cols && caAccessOk cols
    && reportDataOk data && dashFrameAccessOk cols

/-- File names saved by a run of the plotting routines, or `none` when a
routine's frame or report access fails (a `KeyError` on a missing column
such as `TimeStep` at lines 70-71, or a data shape outside what the
routines subscript): the raised exception aborts the script.  The access
checks are conservative: a `some` result is faithful to the program, while
`none` makes no claim about the run, covering both genuine aborts and a
few type-dependent corner shapes left outside the model. -/
def plotSimulationFilesChecked (data : Option Json) (cols : List String)
    (dashOnly : Bool) : Option (List String) :=
  if dashOnly then
    if dashFrameAccessOk cols && reportDataOk data then
      some (plotSimulationFiles data.isSome cols true)
    else none
  else
    if fullRunAccessOk data cols then
      some (plotSimulationFiles data.isSome cols false)
    else none

/-- Embedding of `plot_simulation.py` `main` (lines 301-346): load the
data, exit with status 1 when no frame was obtained, otherwise run the
plotting routines and save into the output directory.  `none` marks a run
outside the model: the loader edge case, or a plotting routine whose frame
or report accesses raise. -/
def plotSimulationMain (input : FsPath) (outDir : String)
    (jsonTop : List (String × Json)) (csvFrame : Frame)
    (dashOnly : Bool) : Option RunOutcome :=
  match loadSimulationData input jsonTop csvFrame with
  | none => none
  | some (data, df) =>
    match df with
    | none => some ⟨some 1, []⟩
    | some frame =>
      match plotSimulationFilesChecked data frame.cols dashOnly with
      | none => none
      | some files =>
          some ⟨none, files.map (fun n => ⟨outDir, n⟩)⟩

/-- C2: for a JSON report whose top-level object contains the key
`TimeSeries` (bound to a list), `load_simulation_data` returns the parsed
object together with a frame whose rows are exactly the elements of that
list in order; for a JSON file without the key it returns `(None, None)`. -/
theorem load_simulation_json_timeseries
    (input : FsPath) (jsonTop : List (String × Json)) (csvFrame : Frame)
    (rows : List Json)
    (hsuf : strLower input.suffix = ".json")
    (hts : jlookup jsonTop "TimeSeries" = some (Json.jarr rows)) :
    loadSimulationData input jsonTop csvFrame
      = some (some (Json.jobj jsonTop), some ⟨dfColsOfRows rows, rows⟩) ∧
    (∀ (input2 : FsPath) (kvs : List (String × Json)) (cf : Frame),
      strLower input2.suffix = ".json" →
      jlookup kvs "TimeSeries" = none →
      loadSimulationData input2 kvs cf = some (none, none)) := by
  constructor
  · simp [loadSimulationData, hsuf, hts]
  · intro input2 kvs cf hs hk
    simp [loadSimulationData, hs, hk]

/-- Concrete instance of `load_simulation_json_timeseries`: a one-row
`TimeSeries` report is loaded as that row, and a keyless object loads as
`(None, None)`. -/
theorem load_simulation_json_timeseries_witness :
    strLower (FsPath.mk "out" "r.json").suffix = ".json" ∧
    jlookup [("TimeSeries", Json.jarr [Json.jobj [("TimeStep", Json.jnum 0)]])]
      "TimeSeries" = some (Json.jarr [Json.jobj [("TimeStep", Json.jnum 0)]]) ∧
    (loadSimulationData ⟨"out", "r.json"⟩
        [("TimeSeries", Json.jarr [Json.jobj [("TimeStep", Json.jnum 0)]])]
        ⟨[], []⟩
      = some (some (Json.jobj
          [("TimeSeries", Json.jarr [Json.jobj [("TimeStep", Json.jnum 0)]])]),
          some ⟨dfColsOfRows [Json.jobj [("TimeStep", Json.jnum 0)]],
               [Json.jobj [("TimeStep", Json.jnum 0)]]⟩) ∧
    (∀ (input2 : FsPath) (kvs : List (String × Json)) (cf : Frame),
      strLower input2.suffix = ".json" →
      jlookup kvs "TimeSeries" = none →
      loadSimulationData input2 kvs cf = some (none, none))) :=
  ⟨rfl, rfl,
    load_simulation_json_timeseries ⟨"out", "r.json"⟩
      [("TimeSeries", Json.jarr [Json.jobj [("TimeStep", Json.jnum 0)]])]
      ⟨[], []⟩ [Json.jobj [("TimeStep", Json.jnum 0)]] rfl rfl⟩

/-- C3: an input path whose suffix is (case-insensitively) neither `.json`
nor `.csv` makes `load_simulation_data` return `(None, None)`, after which
`main` exits with status 1 having written no plot file. -/
theorem unsupported_suffix_rejected
    (input : FsPath) (outDir : String) (jsonTop : List (String × Json))
    (csvFrame : Frame) (dashOnly : Bool)
    (h1 : strLower input.suffix ≠ ".json")
    (h2 : strLower input.suffix ≠ ".csv") :
    loadSimulationData input jsonTop csvFrame = some (none, none) ∧
    plotSimulationMain input outDir jsonTop csvFrame dashOnly
      = some ⟨some 1, []⟩ := by
  have hload : loadSimulationData input jsonTop csvFrame = some (none, none) := by
    simp [loadSimulationData, h1, h2]
  exact ⟨hload, by simp [plotSimulationMain, hload]⟩

/-- Concrete instance of `unsupported_suffix_rejected`: a `.txt` input is
rejected and the run exits with status 1 writing nothing. -/
theorem unsupported_suffix_rejected_witness :
    strLower (FsPath.mk "." "x.txt").suffix ≠ ".json" ∧
    strLower (FsPath.mk "." "x.txt").suffix ≠ ".csv" ∧
    (loadSimulationData ⟨".", "x.txt"⟩ [] ⟨[], []⟩ = some (none, none) ∧
     plotSimulationMain ⟨".", "x.txt"⟩ "plots" [] ⟨[], []⟩ false
       = some ⟨some 1, []⟩) :=
  ⟨by decide, by decide,
    unsupported_suffix_rejected ⟨".", "x.txt"⟩ "plots" [] ⟨[], []⟩ false
      (by decide) (by decide)⟩

/-- Boolean test that `pat` is a suffix of the character list `l`, modelling
Python's `str.endswith`. -/
def endsWithL (l pat : List Char) : Bool :=
  l.drop (l.length - pat.length) == pat

/-- String form of `endsWithL`, used where the scripts and the plotly
library call `str.endswith`. -/
def strEndsWith (s pat : String) : Bool :=
  endsWithL s.toList pat.toList

/-- Modelled from the plotly library: `plotly.offline.plot` writes to the
given file name, first appending `.html` when the name does not already end
with it. -/
def adjustHtml (n : String) : String :=
  if strEndsWith n ".html" then n else n ++ ".html"

/-- Embedding of `load_simulation_data` from interactive_dashboard.py
(lines 23-40): identical to the plot_simulation.py loader on the JSON
branch, but with no CSV branch, so every non-`.json` suffix yields
`(None, None)`. -/
def loadSimulationDataI (input : FsPath) (jsonTop : List (String × Json)) :
    Option (Option Json × Option Frame) :=
  if strLower input.suffix = ".json" then
    match jlookup jsonTop "TimeSeries" with
    | some (Json.jarr rows) =>
        some (some (Json.jobj jsonTop), some ⟨dfColsOfRows rows, rows⟩)
    | some _ => none
    | none => some (none, none)
  else
    some (none, none)

/-- Output path selection of interactive_dashboard.py `main` (lines
300-308): an explicit `-o` path is used as given, otherwise the dashboard is
placed next to the input, named from its stem. -/
def interactiveOut (input : FsPath) (outOpt : Option FsPath) (sens : Bool) :
    FsPath :=
  match outOpt with
  | some p => p
  | none => ⟨input.dir, stemOfName input.name ++
      (if sens then "_sensitivity_dashboard.html" else "_dashboard.html")⟩

/-- Path the HTML file is actually written to: the selected output path
after the plotly library's `.html` adjustment. -/
def effectiveHtmlOut (input : FsPath) (outOpt : Option FsPath) (sens : Bool) :
    FsPath :=
  ⟨(interactiveOut input outOpt sens).dir,
   adjustHtml (interactiveOut input outOpt sens).name⟩

/-- Embedding of interactive_dashboard.py `main` (lines 291-329).  In
sensitivity mode the input is `json.load`ed without a suffix check and
`create_sensitivity_dashboard` writes the HTML file unless the object lacks
`ParameterRankings` (then it returns without writing); otherwise the
simulation loader runs and `sys.exit(1)` fires when it yields no data, else
`create_simulation_dashboard` writes the HTML file.  Exceptions raised
inside the charting library on malformed data are outside the model. -/
def interactiveMain (input : FsPath) (outOpt : Option FsPath) (sens : Bool)
    (jsonTop : List (String × Json)) : Option RunOutcome :=
  if sens then
    match jlookup jsonTop "ParameterRankings" with
    | none => some ⟨none, []⟩
    | some _ => some ⟨none, [effectiveHtmlOut input outOpt true]⟩
  else
    match loadSimulationDataI input jsonTop with
    | none => none
    | some (data, df) =>
      match data, df with
      | some _, some _ => some ⟨none, [effectiveHtmlOut input outOpt false]⟩
      | _, _ => some ⟨some 1, []⟩

theorem endsWithL_iff (l pat : List Char) :
    endsWithL l pat = true ↔ ∃ m, l = m ++ pat := by
  unfold endsWithL
  rw [beq_iff_eq]
  constructor
  · intro h
    refine ⟨l.take (l.length - pat.length), ?_⟩
    nth_rewrite 1 [← List.take_append_drop (l.length - pat.length) l]
    rw [h]
  · rintro ⟨m, rfl⟩
    simp

theorem strEndsWith_adjustHtml (n : String) :
    strEndsWith (adjustHtml n) ".html" = true := by
  unfold adjustHtml
  split
  · assumption
  · unfold strEndsWith
    rw [endsWithL_iff]
    exact ⟨n.toList, by simp [String.toList]⟩

theorem suffixOfName_of_endsWith_html (n : List Char)
    (h : endsWithL n ['.', 'h', 't', 'm', 'l'] = true) :
    suffixOfName n = ['.', 'h', 't', 'm', 'l'] ∨ suffixOfName n = [] := by
  obtain ⟨m, rfl⟩ := (endsWithL_iff _ _).1 h
  unfold suffixOfName
  rw [List.reverse_append]
  have hrev : (['.', 'h', 't', 'm', 'l'] : List Char).reverse
      = ['l', 'm', 't', 'h', '.'] := rfl
  rw [hrev]
  cases m with
  | nil => simp [suffixAux]
  | cons a as =>
      have hne : ((a :: as).reverse).isEmpty = false := by
        simp [List.isEmpty_iff]
      simp [suffixAux, hne]

theorem html_write_ne_json_input (w input : FsPath)
    (hw : strEndsWith w.name ".html" = true)
    (hi : strLower input.suffix = ".json") : w ≠ input := by
  intro he
  subst he
  have h5 : endsWithL w.name.toList ['.', 'h', 't', 'm', 'l'] = true := hw
  rcases suffixOfName_of_endsWith_html _ h5 with h | h
  · rw [FsPath.suffix, h] at hi
    exact absurd hi (by decide)
  · rw [FsPath.suffix, h] at hi
    exact absurd hi (by decide)

theorem load_some_frame_suffix (input : FsPath)
    (jsonTop : List (String × Json)) (csvFrame : Frame)
    (data : Option Json) (frame : Frame)
    (h : loadSimulationData input jsonTop csvFrame = some (data, some frame)) :
    strLower input.suffix = ".json" ∨ strLower input.suffix = ".csv" := by
  unfold loadSimulationData at h
  by_cases h1 : strLower input.suffix = ".json"
  · exact Or.inl h1
  · by_cases h2 : strLower input.suffix = ".csv"
    · exact Or.inr h2
    · simp [h1, h2] at h

theorem loadI_some_frame_suffix (input : FsPath)
    (jsonTop : List (String × Json)) (data : Option Json) (frame : Frame)
    (h : loadSimulationDataI input jsonTop = some (data, some frame)) :
    strLower input.suffix = ".json" := by
  unfold loadSimulationDataI at h
  by_cases h1 : strLower input.suffix = ".json"
  · exact h1
  · simp [h1] at h

theorem mem_plotSimulationFiles (d : Bool) (cols : List String) (dash : Bool)
    (n : String) (h : n ∈ plotSimulationFiles d cols dash) :
    n = "workforce_composition.png" ∨ n = "revenue_productivity.png" ∨
    n = "cost_analysis.png" ∨ n = "equilibrium_analysis.png" ∨
    n = "simulation_dashboard.png" := by
  unfold plotSimulationFiles at h
  split_ifs at h <;> simp at h <;> tauto

theorem png_write_ne_loaded_input (input : FsPath) (outDir n : String)
    (hn : n = "workforce_composition.png" ∨ n = "revenue_productivity.png" ∨
      n = "cost_analysis.png" ∨ n = "equilibrium_analysis.png" ∨
      n = "simulation_dashboard.png")
    (hs : strLower input.suffix = ".json" ∨ strLower input.suffix = ".csv") :
    (FsPath.mk outDir n) ≠ input := by
  intro he
  have hname : input.name = n := by rw [← he]
  rw [FsPath.suffix, hname] at hs
  rcases hn with rfl | rfl | rfl | rfl | rfl <;>
    revert hs <;> decide

theorem filesChecked_eq (data : Option Json) (cols : List String)
    (dashOnly : Bool) (files : List String)
    (h : plotSimulationFilesChecked data cols dashOnly = some files) :
    files = plotSimulationFiles data.isSome cols dashOnly := by
  unfold plotSimulationFilesChecked at h
  cases dashOnly with
  | true =>
      by_cases hc : (dashFrameAccessOk cols && reportDataOk data) = true
      · rw [if_pos rfl, if_pos hc] at h
        exact (Option.some.inj h).symm
      · rw [if_pos rfl, if_neg hc] at h
        cases h
  | false =>
      by_cases hc : fullRunAccessOk data cols = true
      · rw [if_neg (by simp), if_pos hc] at h
        exact (Option.some.inj h).symm
      · rw [if_neg (by simp), if_neg hc] at h
        cases h

theorem plotSimulationMain_writes (input : FsPath) (outDir : String)
    (jsonTop : List (String × Json)) (csvFrame : Frame) (dashOnly : Bool)
    (r : RunOutcome)
    (hm : plotSimulationMain input outDir jsonTop csvFrame dashOnly = some r) :
    r.writes = [] ∨
    ∃ d cols,
      (strLower input.suffix = ".json" ∨ strLower input.suffix = ".csv") ∧
      r.writes = (plotSimulationFiles d cols dashOnly).map
        (fun n => ⟨outDir, n⟩) := by
  unfold plotSimulationMain at hm
  rcases hload : loadSimulationData input jsonTop csvFrame with _ | ⟨data, df⟩
  · rw [hload] at hm
    cases hm
  · rw [hload] at hm
    cases df with
    | none =>
        left
        have hr := Option.some.inj hm
        rw [← hr]
    | some frame =>
        have hm2 : (match plotSimulationFilesChecked data frame.cols dashOnly
            with
            | none => (none : Option RunOutcome)
            | some files =>
                some ⟨none, files.map (fun n => ⟨outDir, n⟩)⟩) = some r := hm
        rcases hch : plotSimulationFilesChecked data frame.cols dashOnly
          with _ | files
        · rw [hch] at hm2
          cases hm2
        · rw [hch] at hm2
          right
          refine ⟨data.isSome, frame.cols,
            load_some_frame_suffix _ _ _ _ _ hload, ?_⟩
          have hr := Option.some.inj hm2
          rw [← hr, filesChecked_eq data frame.cols dashOnly files hch]

/-- C5 as amended: every file a `plot_simulation.py` run writes is a PNG in
the chosen output directory and distinct from the input file, and every file
an `interactive_dashboard.py` run writes is an HTML file; the input is never
overwritten by the non-sensitivity dashboard, and is untouched by the
sensitivity dashboard whenever the effective HTML output path differs from
the input path. -/
theorem visualization_frame_effects
    (input : FsPath) (outDir : String) (jsonTop : List (String × Json))
    (csvFrame : Frame) (dashOnly : Bool) (outOpt : Option FsPath) :
    (∀ r w, plotSimulationMain input outDir jsonTop csvFrame dashOnly = some r →
      w ∈ r.writes →
      (w.dir = outDir ∧ strEndsWith w.name ".png" = true) ∧ w ≠ input) ∧
    (∀ r w, interactiveMain input outOpt false jsonTop = some r →
      w ∈ r.writes → strEndsWith w.name ".html" = true ∧ w ≠ input) ∧
    (∀ r w, interactiveMain input outOpt true jsonTop = some r →
      w ∈ r.writes → strEndsWith w.name ".html" = true ∧
        (effectiveHtmlOut input outOpt true ≠ input → w ≠ input)) := by
  refine ⟨?_, ?_, ?_⟩
  · intro r w hm hw
    rcases plotSimulationMain_writes _ _ _ _ _ _ hm with hnil | ⟨d, cols, hs, hmap⟩
    · rw [hnil] at hw
      cases hw
    · rw [hmap] at hw
      obtain ⟨n, hn, rfl⟩ := List.mem_map.1 hw
      have h5 := mem_plotSimulationFiles _ _ _ _ hn
      have hpng : strEndsWith n ".png" = true := by
        rcases h5 with rfl | rfl | rfl | rfl | rfl <;> decide
      exact ⟨⟨rfl, hpng⟩, png_write_ne_loaded_input input outDir n h5 hs⟩
  · intro r w hm hw
    unfold interactiveMain at hm
    simp only [Bool.false_eq_true, if_false] at hm
    rcases hload : loadSimulationDataI input jsonTop with _ | ⟨data, df⟩
    · rw [hload] at hm
      cases hm
    · rw [hload] at hm
      cases data with
      | none =>
          cases df <;>
            · have hr := Option.some.inj hm
              rw [← hr] at hw
              cases hw
      | some jv =>
          cases df with
          | none =>
              have hr := Option.some.inj hm
              rw [← hr] at hw
              cases hw
          | some frame =>
              have hr := Option.some.inj hm
              rw [← hr] at hw
              have hwq : w = effectiveHtmlOut input outOpt false := by
                simpa using hw
              have hhtml : strEndsWith w.name ".html" = true := by
                rw [hwq]
                exact strEndsWith_adjustHtml _
              exact ⟨hhtml, html_write_ne_json_input w input hhtml
                (loadI_some_frame_suffix _ _ _ _ hload)⟩
  · intro r w hm hw
    unfold interactiveMain at hm
    simp only [if_true] at hm
    rcases hpr : jlookup jsonTop "ParameterRankings" with _ | v
    · rw [hpr] at hm
      have hr := Option.some.inj hm
      rw [← hr] at hw
      cases hw
    · rw [hpr] at hm
      have hr := Option.some.inj hm
      rw [← hr] at hw
      have hwq : w = effectiveHtmlOut input outOpt true := by
        simpa using hw
      refine ⟨?_, ?_⟩
      · rw [hwq]
        exact strEndsWith_adjustHtml _
      · intro hne
        rw [hwq]
        exact hne

/-- C5 counterexample: a sensitivity-dashboard run given an explicit output
path equal to the input path (a JSON file named with an `.html` suffix, as
that mode never checks the suffix) writes its HTML output to the input path
itself, so the input file's contents are not preserved by every run. -/
theorem interactive_sensitivity_overwrites_input :
    interactiveMain ⟨".", "data.html"⟩ (some ⟨".", "data.html"⟩) true
      [("ParameterRankings", Json.jarr [])]
      = some ⟨none, [⟨".", "data.html"⟩]⟩ ∧
    FsPath.mk "." "data.html" ∈ [FsPath.mk "." "data.html"] :=
  ⟨by decide, by decide⟩

/-- Concrete instance of `visualization_frame_effects`: a dashboard-only
run on a CSV input writes the single dashboard PNG into the output
directory, and that file is not the input. -/
theorem visualization_frame_effects_witness :
    plotSimulationMain ⟨".", "r.csv"⟩ "plots" [] ⟨["TimeStep"], []⟩ true
      = some ⟨none, [⟨"plots", "simulation_dashboard.png"⟩]⟩ ∧
    FsPath.mk "plots" "simulation_dashboard.png" ∈
      (RunOutcome.mk none [⟨"plots", "simulation_dashboard.png"⟩]).writes ∧
    (((FsPath.mk "plots" "simulation_dashboard.png").dir = "plots" ∧
      strEndsWith (FsPath.mk "plots" "simulation_dashboard.png").name ".png"
        = true) ∧
     FsPath.mk "plots" "simulation_dashboard.png" ≠ FsPath.mk "." "r.csv") :=
  ⟨by decide, by decide,
    (visualization_frame_effects ⟨".", "r.csv"⟩ "plots" [] ⟨["TimeStep"], []⟩
        true none).1
      ⟨none, [⟨"plots", "simulation_dashboard.png"⟩]⟩
      ⟨"plots", "simulation_dashboard.png"⟩ (by decide) (by decide)⟩

/-- C6: chart generation is a deterministic function of the parsed input
file: two runs of either entry point on equal inputs with equal output
locations produce equal outcomes; no other parameter (scheduler, clock,
hidden state) exists in the pipeline to influence the result. -/
theorem chart_generation_deterministic
    (i1 i2 : FsPath) (o1 o2 : String) (j1 j2 : List (String × Json))
    (c1 c2 : Frame) (d1 d2 : Bool) (oo1 oo2 : Option FsPath) (s1 s2 : Bool)
    (hi : i1 = i2) (ho : o1 = o2) (hj : j1 = j2) (hc : c1 = c2)
    (hd : d1 = d2) (hoo : oo1 = oo2) (hs : s1 = s2) :
    plotSimulationMain i1 o1 j1 c1 d1 = plotSimulationMain i2 o2 j2 c2 d2 ∧
    interactiveMain i1 oo1 s1 j1 = interactiveMain i2 oo2 s2 j2 := by
  subst hi; subst ho; subst hj; subst hc; subst hd; subst hoo; subst hs
  exact ⟨rfl, rfl⟩

/-- Concrete instance of `chart_generation_deterministic` on a small CSV
run. -/
theorem chart_generation_deterministic_witness :
    (FsPath.mk "." "r.csv") = (FsPath.mk "." "r.csv") ∧
    (plotSimulationMain ⟨".", "r.csv"⟩ "plots" [] ⟨["TimeStep"], []⟩ true
       = plotSimulationMain ⟨".", "r.csv"⟩ "plots" [] ⟨["TimeStep"], []⟩ true ∧
     interactiveMain ⟨".", "r.csv"⟩ none false []
       = interactiveMain ⟨".", "r.csv"⟩ none false []) :=
  ⟨rfl, chart_generation_deterministic ⟨".", "r.csv"⟩ ⟨".", "r.csv"⟩
    "plots" "plots" [] [] ⟨["TimeStep"], []⟩ ⟨["TimeStep"], []⟩ true true
    none none false false rfl rfl rfl rfl rfl rfl rfl⟩

/-- Boolean test that `pat` starts the character list `l`, modelling
Python's `str.startswith`. -/
def startsWithL (l pat : List Char) : Bool :=
  l.take pat.length == pat

/-- String form of `startsWithL`. -/
def strStartsWith (s pat : String) : Bool :=
  startsWithL s.toList pat.toList

/-- Parameter-column recognition of `plot_sensitivity_heatmap`
(plot_sensitivity.py line 161): a name starting with `Param_` or listed in
`InitialHumans`, `FixedBudget`, `NaturalRate`. -/
def isParamCol (c : String) : Bool :=
  strStartsWith c "Param_" ||
    ["InitialHumans", "FixedBudget", "NaturalRate"].contains c

/-- Outcome-column recognition of `plot_sensitivity_heatmap` (line 163). -/
def isOutcomeCol (c : String) : Bool :=
  ["TimeToEquilibrium", "FinalHumans", "FinalAIAgents",
   "FinalRevenue"].contains c

/-- Columns classified as parameters, in column order (lines 160-162). -/
def paramCols (cols : List String) : List String :=
  cols.filter isParamCol

/-- Columns classified as outcomes, in column order; the `elif` gives the
parameter test precedence (lines 163-164). -/
def outcomeCols (cols : List String) : List String :=
  cols.filter (fun c => !isParamCol c && isOutcomeCol c)

/-- Correlation records built by `plot_sensitivity_heatmap` (lines
170-180): one `(Parameter, Outcome, correlation)` triple per pair, in loop
order, keeping the source's in-loop membership re-check.  The function
`corr` stands for the pandas library call `df[param].corr(df[outcome])`,
the pairwise Pearson correlation of the two columns. -/
def corrData (corr : List ℚ → List ℚ → ℚ) (df : String → List ℚ)
    (cols : List String) : List (String × String × ℚ) :=
  (paramCols cols).flatMap (fun p =>
    (outcomeCols cols).filterMap (fun o =>
      if p ∈ cols ∧ o ∈ cols then some (p, o, corr (df p) (df o)) else none))

/-- Heatmap cell for the pair `(p, o)` after the
`corr_df.pivot(index, columns, values)` reshaping (lines 186-187): the
`Correlation` value of the record keyed by `(p, o)`.  The pivot requires
the `(Parameter, Outcome)` pairs to be unique, which holds when the column
names are distinct (as `pd.read_csv` guarantees by mangling duplicates). -/
def heatmapCell (corr : List ℚ → List ℚ → ℚ) (df : String → List ℚ)
    (cols : List String) (p o : String) : Option ℚ :=
  ((corrData corr df cols).find?
    (fun r => r.1 == p && r.2.1 == o)).map (fun r => r.2.2)


theorem find?_append_of_none {α : Type} (p : α → Bool) (l1 l2 : List α)
    (h : l1.find? p = none) : (l1 ++ l2).find? p = l2.find? p := by
  induction l1 with
  | nil => rfl
  | cons a l ih =>
      rw [List.cons_append]
      cases hpa : p a with
      | true => rw [List.find?_cons_of_pos _ hpa] at h; cases h
      | false =>
          rw [List.find?_cons_of_neg _ (by simp [hpa])] at h
          rw [List.find?_cons_of_neg _ (by simp [hpa])]
          exact ih h

theorem corr_block_find_none (corr : List ℚ → List ℚ → ℚ)
    (df : String → List ℚ) (cols : List String) (a p o : String)
    (os : List String) (hne : a ≠ p) :
    ((os.filterMap (fun x =>
        if a ∈ cols ∧ x ∈ cols then some (a, x, corr (df a) (df x))
        else none)).find? (fun r => r.1 == p && r.2.1 == o)) = none := by
  induction os with
  | nil => rfl
  | cons b os ih =>
      by_cases hc : a ∈ cols ∧ b ∈ cols
      · have hstep : List.filterMap (fun x => if a ∈ cols ∧ x ∈ cols
            then some (a, x, corr (df a) (df x)) else none) (b :: os)
            = (a, b, corr (df a) (df b)) :: List.filterMap
              (fun x => if a ∈ cols ∧ x ∈ cols
                then some (a, x, corr (df a) (df x)) else none) os := by
          simp [List.filterMap_cons, hc]
        rw [hstep, List.find?_cons_of_neg _ (by simp [hne])]
        exact ih
      · have hstep : List.filterMap (fun x => if a ∈ cols ∧ x ∈ cols
            then some (a, x, corr (df a) (df x)) else none) (b :: os)
            = List.filterMap (fun x => if a ∈ cols ∧ x ∈ cols
                then some (a, x, corr (df a) (df x)) else none) os := by
          simp [List.filterMap_cons, hc]
        rw [hstep]
        exact ih

theorem corr_block_find_some (corr : List ℚ → List ℚ → ℚ)
    (df : String → List ℚ) (cols : List String) (p o : String)
    (os : List String) (hpc : p ∈ cols) (ho : o ∈ os)
    (hosc : ∀ x ∈ os, x ∈ cols) :
    ((os.filterMap (fun x =>
        if p ∈ cols ∧ x ∈ cols then some (p, x, corr (df p) (df x))
        else none)).find? (fun r => r.1 == p && r.2.1 == o))
      = some (p, o, corr (df p) (df o)) := by
  induction os with
  | nil => cases ho
  | cons b os ih =>
      have hcond : (p ∈ cols ∧ b ∈ cols) := ⟨hpc, hosc b (by simp)⟩
      have hstep : List.filterMap (fun x => if p ∈ cols ∧ x ∈ cols
          then some (p, x, corr (df p) (df x)) else none) (b :: os)
          = (p, b, corr (df p) (df b)) :: List.filterMap
            (fun x => if p ∈ cols ∧ x ∈ cols
              then some (p, x, corr (df p) (df x)) else none) os := by
        simp [List.filterMap_cons, hcond]
      rw [hstep]
      by_cases hbo : b = o
      · subst hbo
        rw [List.find?_cons_of_pos _ (by simp)]
      · rw [List.find?_cons_of_neg _ (by simp [hbo])]
        have ho2 : o ∈ os := by
          rcases List.mem_cons.1 ho with rfl | h
          · exact absurd rfl hbo
          · exact h
        exact ih ho2 (fun x hx => hosc x (List.mem_cons_of_mem _ hx))

theorem find?_append_of_some {α : Type} (p : α → Bool) (l1 l2 : List α)
    (x : α) (h : l1.find? p = some x) : (l1 ++ l2).find? p = some x := by
  induction l1 with
  | nil => cases h
  | cons a l ih =>
      rw [List.cons_append]
      cases hpa : p a with
      | true =>
          rw [List.find?_cons_of_pos _ hpa] at h
          rw [List.find?_cons_of_pos _ hpa]
          exact h
      | false =>
          rw [List.find?_cons_of_neg _ (by simp [hpa])] at h
          rw [List.find?_cons_of_neg _ (by simp [hpa])]
          exact ih h

theorem corr_data_find (corr : List ℚ → List ℚ → ℚ) (df : String → List ℚ)
    (cols : List String) (p o : String) (ps : List String)
    (hp : p ∈ ps) (hpsub : ∀ x ∈ ps, x ∈ cols)
    (ho : o ∈ outcomeCols cols) :
    ((ps.flatMap (fun a => (outcomeCols cols).filterMap (fun x =>
        if a ∈ cols ∧ x ∈ cols then some (a, x, corr (df a) (df x))
        else none))).find? (fun r => r.1 == p && r.2.1 == o))
      = some (p, o, corr (df p) (df o)) := by
  induction ps with
  | nil => cases hp
  | cons a ps ih =>
      rw [List.flatMap_cons]
      by_cases hap : a = p
      · subst hap
        exact find?_append_of_some _ _ _ _
          (corr_block_find_some corr df cols a o (outcomeCols cols)
            (hpsub a (by simp)) ho
            (fun x hx => List.mem_of_mem_filter hx))
      · rw [find?_append_of_none _ _ _
          (corr_block_find_none corr df cols a p o (outcomeCols cols) hap)]
        have hp2 : p ∈ ps := by
          rcases List.mem_cons.1 hp with rfl | h
          · exact absurd rfl hap
          · exact h
        exact ih hp2 (fun x hx => hpsub x (List.mem_cons_of_mem _ hx))

/-- C1: for a sensitivity CSV with at least one recognised parameter column
and one recognised outcome column, the heatmap cell for the pair `(p, o)`
is exactly the pairwise correlation of column `p` and column `o` as
returned by the single library call `df[p].corr(df[o])` (pandas pairwise
Pearson correlation), with no custom algorithm in between; `corr` is that
library call, abstracted as a parameter.  Distinctness of the column names
(`pd.read_csv` mangles duplicates) keeps the pivot well defined. -/
theorem heatmap_cell_is_pairwise_corr
    (corr : List ℚ → List ℚ → ℚ) (df : String → List ℚ) (cols : List String)
    (p o : String) (_hnd : cols.Nodup)
    (hp : p ∈ paramCols cols) (ho : o ∈ outcomeCols cols) :
    heatmapCell corr df cols p o = some (corr (df p) (df o)) := by
  unfold heatmapCell corrData
  rw [corr_data_find corr df cols p o (paramCols cols) hp
    (fun x hx => List.mem_of_mem_filter hx) ho]
  rfl

/-- Concrete instance of `heatmap_cell_is_pairwise_corr` on a two-column
frame and a sample correlation function. -/
theorem heatmap_cell_is_pairwise_corr_witness :
    (["Param_x", "TimeToEquilibrium"] : List String).Nodup ∧
    "Param_x" ∈ paramCols ["Param_x", "TimeToEquilibrium"] ∧
    "TimeToEquilibrium" ∈ outcomeCols ["Param_x", "TimeToEquilibrium"] ∧
    heatmapCell (fun v w => (v.length : ℚ) + w.length)
      (fun c => if c == "Param_x" then [1, 2] else [3, 4, 5])
      ["Param_x", "TimeToEquilibrium"] "Param_x" "TimeToEquilibrium"
      = some ((fun v w => (v.length : ℚ) + w.length)
          ((fun c => if c == "Param_x" then [1, 2] else [3, 4, 5]) "Param_x")
          ((fun c => if c == "Param_x" then [1, 2] else [3, 4, 5])
            "TimeToEquilibrium")) :=
  ⟨by decide, by decide, by decide,
    heatmap_cell_is_pairwise_corr (fun v w => (v.length : ℚ) + w.length)
      (fun c => if c == "Param_x" then [1, 2] else [3, 4, 5])
      ["Param_x", "TimeToEquilibrium"] "Param_x" "TimeToEquilibrium"
      (by decide) (by decide) (by decide)⟩

/-- One entry of a `ParameterRankings` list: a parameter name plus the two
optional impact scores; an absent key is `none` (both scripts assume
`ParameterName` is always present). -/
structure SRanking where
  name : String
  timeImpact : Option ℚ
  compImpact : Option ℚ
deriving DecidableEq, Repr

/-- Python's `max` over a nonempty list: keep the current value unless the
next is strictly greater, so ties keep the earliest maximum. -/
def pymax : List ℚ → ℚ
  | [] => 0
  | x :: xs => xs.foldl (fun a b => if a < b then b else a) x

/-- Python's `list.index`: index of the first element equal to `x`. -/
def pyIndex (l : List ℚ) (x : ℚ) : Nat :=
  l.findIdx (fun v => v = x)

/-- Summary statistics table of `create_sensitivity_dashboard`
(interactive_dashboard.py lines 198-252), with `none` standing for the
source's `'N/A'` strings. -/
structure SensSummary where
  totalParams : Nat
  mostTime : Option String
  mostComp : Option String
  avgTime : Option ℚ
  avgComp : Option ℚ
deriving DecidableEq, Repr

/-- Embedding of the summary-statistics computation of
`create_sensitivity_dashboard` (lines 199-252): the impact lists take
`param.get(key, 0)` with default `0`, the most-impactful rows are
`param_names[impacts.index(max(impacts))]`, and the average rows are
`sum(impacts)/len(impacts)`; all four are `'N/A'` when the rankings list is
empty. -/
def createSensitivitySummary (rankings : List SRanking) : SensSummary :=
  let names := rankings.map (fun r => r.name)
  let ti := rankings.map (fun r => r.timeImpact.getD 0)
  let ci := rankings.map (fun r => r.compImpact.getD 0)
  { totalParams := names.length
    mostTime := if ti.isEmpty then none
      else some (names.getD (pyIndex ti (pymax ti)) "")
    mostComp := if ci.isEmpty then none
      else some (names.getD (pyIndex ci (pymax ci)) "")
    avgTime := if ti.isEmpty then none
      else some (ti.sum / (ti.length : ℚ))
    avgComp := if ci.isEmpty then none
      else some (ci.sum / (ci.length : ℚ)) }

theorem pymax_foldl_le (xs : List ℚ) (a : ℚ) :
    a ≤ xs.foldl (fun a b => if a < b then b else a) a := by
  induction xs generalizing a with
  | nil => exact le_refl a
  | cons x xs ih =>
      rw [List.foldl_cons]
      by_cases h : a < x
      · rw [if_pos h]
        exact le_of_lt (lt_of_lt_of_le h (ih x))
      · rw [if_neg h]
        exact ih a

theorem pymax_foldl_mem_le (xs : List ℚ) (a y : ℚ) (hy : y ∈ xs) :
    y ≤ xs.foldl (fun a b => if a < b then b else a) a := by
  induction xs generalizing a with
  | nil => cases hy
  | cons x xs ih =>
      rw [List.foldl_cons]
      rcases List.mem_cons.1 hy with rfl | h
      · by_cases hax : a < y
        · rw [if_pos hax]
          exact pymax_foldl_le xs y
        · rw [if_neg hax]
          exact le_trans (le_of_not_lt hax) (pymax_foldl_le xs a)
      · by_cases hax : a < x
        · rw [if_pos hax]
          exact ih x h
        · rw [if_neg hax]
          exact ih a h

theorem pymax_foldl_cases (xs : List ℚ) (a : ℚ) :
    xs.foldl (fun a b => if a < b then b else a) a = a ∨
    xs.foldl (fun a b => if a < b then b else a) a ∈ xs := by
  induction xs generalizing a with
  | nil => exact Or.inl rfl
  | cons x xs ih =>
      rw [List.foldl_cons]
      by_cases h : a < x
      · rw [if_pos h]
        rcases ih x with he | hm
        · exact Or.inr (by rw [he]; simp)
        · exact Or.inr (List.mem_cons_of_mem _ hm)
      · rw [if_neg h]
        rcases ih a with he | hm
        · exact Or.inl he
        · exact Or.inr (List.mem_cons_of_mem _ hm)

theorem pymax_mem (l : List ℚ) (h : l ≠ []) : pymax l ∈ l := by
  cases l with
  | nil => exact absurd rfl h
  | cons x xs =>
      have hred : pymax (x :: xs)
          = xs.foldl (fun a b => if a < b then b else a) x := rfl
      rw [hred]
      rcases pymax_foldl_cases xs x with he | hm
      · rw [he]; simp
      · exact List.mem_cons_of_mem _ hm

theorem le_pymax (l : List ℚ) (y : ℚ) (hy : y ∈ l) : y ≤ pymax l := by
  cases l with
  | nil => cases hy
  | cons x xs =>
      have hred : pymax (x :: xs)
          = xs.foldl (fun a b => if a < b then b else a) x := rfl
      rw [hred]
      rcases List.mem_cons.1 hy with rfl | h
      · exact pymax_foldl_le xs y
      · exact pymax_foldl_mem_le xs x y h

theorem findIdx_spec {α : Type} (p : α → Bool) (l : List α) (d : α)
    (h : ∃ x ∈ l, p x = true) :
    l.findIdx p < l.length ∧ p (l.getD (l.findIdx p) d) = true ∧
    ∀ j, j < l.findIdx p → p (l.getD j d) = false := by
  induction l with
  | nil =>
      obtain ⟨x, hx, _⟩ := h
      cases hx
  | cons a l ih =>
      cases hpa : p a with
      | true =>
          have hfi : (a :: l).findIdx p = 0 := by
            rw [List.findIdx_cons, hpa, cond]
          rw [hfi]
          exact ⟨by simp, by simpa using hpa, fun j hj => absurd hj (by omega)⟩
      | false =>
          have hfi : (a :: l).findIdx p = l.findIdx p + 1 := by
            rw [List.findIdx_cons, hpa, cond]
          have hex : ∃ x ∈ l, p x = true := by
            obtain ⟨x, hx, hpx⟩ := h
            rcases List.mem_cons.1 hx with rfl | hx2
            · rw [hpa] at hpx; cases hpx
            · exact ⟨x, hx2, hpx⟩
          obtain ⟨hlt, hget, hbefore⟩ := ih hex
          rw [hfi]
          refine ⟨by simpa using hlt, by simpa using hget, ?_⟩
          intro j hj
          cases j with
          | zero => simpa using hpa
          | succ k =>
              rw [List.getD_cons_succ]
              exact hbefore k (by omega)

theorem getD_map_lt {α β : Type} (f : α → β) (l : List α) (i : Nat)
    (hi : i < l.length) (d : β) (e : α) :
    (l.map f).getD i d = f (l.getD i e) := by
  induction l generalizing i with
  | nil => cases hi
  | cons a l ih =>
      cases i with
      | zero => rfl
      | succ k =>
          rw [List.map_cons, List.getD_cons_succ, List.getD_cons_succ]
          exact ih k (by simpa using hi)

theorem getD_mem_of_lt {α : Type} (l : List α) (i : Nat)
    (hi : i < l.length) (d : α) : l.getD i d ∈ l := by
  induction l generalizing i with
  | nil => cases hi
  | cons a l ih =>
      cases i with
      | zero => simp
      | succ k =>
          rw [List.getD_cons_succ]
          exact List.mem_cons_of_mem _ (ih k (by simpa using hi))

theorem summary_argmax (rankings : List SRanking) (h : rankings ≠ [])
    (f : SRanking → ℚ) :
    pyIndex (rankings.map f) (pymax (rankings.map f)) < rankings.length ∧
    ((rankings.map (fun r => r.name)).getD
        (pyIndex (rankings.map f) (pymax (rankings.map f))) "")
      = (rankings.getD
          (pyIndex (rankings.map f) (pymax (rankings.map f)))
          ⟨"", none, none⟩).name ∧
    (∀ k, k < rankings.length →
      f (rankings.getD k ⟨"", none, none⟩)
        ≤ f (rankings.getD
            (pyIndex (rankings.map f) (pymax (rankings.map f)))
            ⟨"", none, none⟩)) ∧
    (∀ k, k < pyIndex (rankings.map f) (pymax (rankings.map f)) →
      f (rankings.getD k ⟨"", none, none⟩)
        < f (rankings.getD
            (pyIndex (rankings.map f) (pymax (rankings.map f)))
            ⟨"", none, none⟩)) := by
  have hne : rankings.map f ≠ [] := by
    intro hh
    exact h (List.map_eq_nil_iff.1 hh)
  have hm : pymax (rankings.map f) ∈ rankings.map f :=
    pymax_mem _ hne
  have hex : ∃ x ∈ rankings.map f,
      (fun v => decide (v = pymax (rankings.map f))) x = true :=
    ⟨pymax (rankings.map f), hm, by simp⟩
  obtain ⟨hlt, hget, hbefore⟩ :=
    findIdx_spec (fun v => decide (v = pymax (rankings.map f)))
      (rankings.map f) 0 hex
  have hlen : (rankings.map f).length = rankings.length := List.length_map _ _
  have hi : pyIndex (rankings.map f) (pymax (rankings.map f))
      < rankings.length := by
    rw [← hlen]
    exact hlt
  have hval : (rankings.map f).getD
      (pyIndex (rankings.map f) (pymax (rankings.map f))) 0
      = pymax (rankings.map f) := of_decide_eq_true hget
  have hfi : f (rankings.getD
      (pyIndex (rankings.map f) (pymax (rankings.map f))) ⟨"", none, none⟩)
      = pymax (rankings.map f) := by
    rw [← getD_map_lt f rankings _ hi 0 ⟨"", none, none⟩]
    exact hval
  refine ⟨hi, getD_map_lt _ rankings _ hi "" ⟨"", none, none⟩, ?_, ?_⟩
  · intro k hk
    rw [hfi, ← getD_map_lt f rankings k hk 0 ⟨"", none, none⟩]
    exact le_pymax _ _ (getD_mem_of_lt _ k (by rw [hlen]; exact hk) 0)
  · intro k hk
    have hk2 : k < rankings.length := lt_trans hk hi
    have hne2 : (rankings.map f).getD k 0 ≠ pymax (rankings.map f) :=
      of_decide_eq_false (hbefore k hk)
    have hle : (rankings.map f).getD k 0 ≤ pymax (rankings.map f) :=
      le_pymax _ _ (getD_mem_of_lt _ k (by rw [hlen]; exact hk2) 0)
    rw [hfi, ← getD_map_lt f rankings k hk2 0 ⟨"", none, none⟩]
    exact lt_of_le_of_ne hle hne2


theorem sensSummary_mostTime_eq (rankings : List SRanking) :
    (createSensitivitySummary rankings).mostTime
      = (if (rankings.map (fun r => r.timeImpact.getD 0)).isEmpty then none
        else some ((rankings.map (fun r => r.name)).getD
          (pyIndex (rankings.map (fun r => r.timeImpact.getD 0))
            (pymax (rankings.map (fun r => r.timeImpact.getD 0)))) "")) := rfl

theorem sensSummary_mostComp_eq (rankings : List SRanking) :
    (createSensitivitySummary rankings).mostComp
      = (if (rankings.map (fun r => r.compImpact.getD 0)).isEmpty then none
        else some ((rankings.map (fun r => r.name)).getD
          (pyIndex (rankings.map (fun r => r.compImpact.getD 0))
            (pymax (rankings.map (fun r => r.compImpact.getD 0)))) "")) := rfl

theorem sensSummary_avgTime_eq (rankings : List SRanking) :
    (createSensitivitySummary rankings).avgTime
      = (if (rankings.map (fun r => r.timeImpact.getD 0)).isEmpty then none
        else some ((rankings.map (fun r => r.timeImpact.getD 0)).sum
          / (((rankings.map (fun r => r.timeImpact.getD 0)).length : ℚ)))) :=
  rfl

theorem sensSummary_avgComp_eq (rankings : List SRanking) :
    (createSensitivitySummary rankings).avgComp
      = (if (rankings.map (fun r => r.compImpact.getD 0)).isEmpty then none
        else some ((rankings.map (fun r => r.compImpact.getD 0)).sum
          / (((rankings.map (fun r => r.compImpact.getD 0)).length : ℚ)))) :=
  rfl

/-- C7: for every non-empty `ParameterRankings` list, the summary table's
`Most Impactful (Time)` entry names the parameter whose
`TimeToEquilibriumImpact` (0 when the key is absent) is maximal, taking the
first occurrence on ties; `Most Impactful (Composition)` is analogous for
`WorkforceCompositionImpact`; and the two average rows are the arithmetic
means of the respective per-parameter impact values. -/
theorem sensitivity_summary_correct (rankings : List SRanking)
    (h : rankings ≠ []) :
    ∃ i j, i < rankings.length ∧ j < rankings.length ∧
      (createSensitivitySummary rankings).mostTime
        = some ((rankings.getD i ⟨"", none, none⟩).name) ∧
      (∀ k, k < rankings.length →
        (rankings.getD k ⟨"", none, none⟩).timeImpact.getD 0
          ≤ (rankings.getD i ⟨"", none, none⟩).timeImpact.getD 0) ∧
      (∀ k, k < i →
        (rankings.getD k ⟨"", none, none⟩).timeImpact.getD 0
          < (rankings.getD i ⟨"", none, none⟩).timeImpact.getD 0) ∧
      (createSensitivitySummary rankings).mostComp
        = some ((rankings.getD j ⟨"", none, none⟩).name) ∧
      (∀ k, k < rankings.length →
        (rankings.getD k ⟨"", none, none⟩).compImpact.getD 0
          ≤ (rankings.getD j ⟨"", none, none⟩).compImpact.getD 0) ∧
      (∀ k, k < j →
        (rankings.getD k ⟨"", none, none⟩).compImpact.getD 0
          < (rankings.getD j ⟨"", none, none⟩).compImpact.getD 0) ∧
      (createSensitivitySummary rankings).avgTime
        = some ((rankings.map (fun r => r.timeImpact.getD 0)).sum
            / (rankings.length : ℚ)) ∧
      (createSensitivitySummary rankings).avgComp
        = some ((rankings.map (fun r => r.compImpact.getD 0)).sum
            / (rankings.length : ℚ)) := by
  obtain ⟨hit, hnamet, hlet, hltt⟩ :=
    summary_argmax rankings h (fun r => r.timeImpact.getD 0)
  obtain ⟨hic, hnamec, hlec, hltc⟩ :=
    summary_argmax rankings h (fun r => r.compImpact.getD 0)
  have hemp : (rankings.map (fun r => r.timeImpact.getD 0)).isEmpty
      = false := by
    cases rankings with
    | nil => exact absurd rfl h
    | cons a l => rfl
  have hempc : (rankings.map (fun r => r.compImpact.getD 0)).isEmpty
      = false := by
    cases rankings with
    | nil => exact absurd rfl h
    | cons a l => rfl
  refine ⟨_, _, hit, hic, ?_, hlet, hltt, ?_, hlec, hltc, ?_, ?_⟩
  · rw [sensSummary_mostTime_eq, hemp, if_neg (by simp), hnamet]
  · rw [sensSummary_mostComp_eq, hempc, if_neg (by simp), hnamec]
  · rw [sensSummary_avgTime_eq, hemp, if_neg (by simp), List.length_map]
  · rw [sensSummary_avgComp_eq, hempc, if_neg (by simp), List.length_map]

/-- Concrete instance of `sensitivity_summary_correct` on a two-parameter
rankings list. -/
theorem sensitivity_summary_correct_witness :
    ([⟨"alpha", some 1, some 5⟩, ⟨"beta", some 3, none⟩] : List SRanking) ≠ [] ∧
    (
    ∃ i j, i < ([⟨"alpha", some 1, some 5⟩, ⟨"beta", some 3, none⟩] : List SRanking).length ∧ j < ([⟨"alpha", some 1, some 5⟩, ⟨"beta", some 3, none⟩] : List SRanking).length ∧
      (createSensitivitySummary ([⟨"alpha", some 1, some 5⟩, ⟨"beta", some 3, none⟩] : List SRanking)).mostTime
        = some ((([⟨"alpha", some 1, some 5⟩, ⟨"beta", some 3, none⟩] : List SRanking).getD i ⟨"", none, none⟩).name) ∧
      (∀ k, k < ([⟨"alpha", some 1, some 5⟩, ⟨"beta", some 3, none⟩] : List SRanking).length →
        (([⟨"alpha", some 1, some 5⟩, ⟨"beta", some 3, none⟩] : List SRanking).getD k ⟨"", none, none⟩).timeImpact.getD 0
          ≤ (([⟨"alpha", some 1, some 5⟩, ⟨"beta", some 3, none⟩] : List SRanking).getD i ⟨"", none, none⟩).timeImpact.getD 0) ∧
      (∀ k, k < i →
        (([⟨"alpha", some 1, some 5⟩, ⟨"beta", some 3, none⟩] : List SRanking).getD k ⟨"", none, none⟩).timeImpact.getD 0
          < (([⟨"alpha", some 1, some 5⟩, ⟨"beta", some 3, none⟩] : List SRanking).getD i ⟨"", none, none⟩).timeImpact.getD 0) ∧
      (createSensitivitySummary ([⟨"alpha", some 1, some 5⟩, ⟨"beta", some 3, none⟩] : List SRanking)).mostComp
        = some ((([⟨"alpha", some 1, some 5⟩, ⟨"beta", some 3, none⟩] : List SRanking).getD j ⟨"", none, none⟩).name) ∧
      (∀ k, k < ([⟨"alpha", some 1, some 5⟩, ⟨"beta", some 3, none⟩] : List SRanking).length →
        (([⟨"alpha", some 1, some 5⟩, ⟨"beta", some 3, none⟩] : List SRanking).getD k ⟨"", none, none⟩).compImpact.getD 0
          ≤ (([⟨"alpha", some 1, some 5⟩, ⟨"beta", some 3, none⟩] : List SRanking).getD j ⟨"", none, none⟩).compImpact.getD 0) ∧
      (∀ k, k < j →
        (([⟨"alpha", some 1, some 5⟩, ⟨"beta", some 3, none⟩] : List SRanking).getD k ⟨"", none, none⟩).compImpact.getD 0
          < (([⟨"alpha", some 1, some 5⟩, ⟨"beta", some 3, none⟩] : List SRanking).getD j ⟨"", none, none⟩).compImpact.getD 0) ∧
      (createSensitivitySummary ([⟨"alpha", some 1, some 5⟩, ⟨"beta", some 3, none⟩] : List SRanking)).avgTime
        = some ((([⟨"alpha", some 1, some 5⟩, ⟨"beta", some 3, none⟩] : List SRanking).map (fun r => r.timeImpact.getD 0)).sum
            / (([⟨"alpha", some 1, some 5⟩, ⟨"beta", some 3, none⟩] : List SRanking).length : ℚ)) ∧
      (createSensitivitySummary ([⟨"alpha", some 1, some 5⟩, ⟨"beta", some 3, none⟩] : List SRanking)).avgComp
        = some ((([⟨"alpha", some 1, some 5⟩, ⟨"beta", some 3, none⟩] : List SRanking).map (fun r => r.compImpact.getD 0)).sum
            / (([⟨"alpha", some 1, some 5⟩, ⟨"beta", some 3, none⟩] : List SRanking).length : ℚ))) :=
  ⟨by decide,
    sensitivity_summary_correct
      [⟨"alpha", some 1, some 5⟩, ⟨"beta", some 3, none⟩] (by decide)⟩

/-- Budget-utilization formula of `plot_cost_analysis` (plot_simulation.py
line 137) and `create_simulation_dashboard` (interactive_dashboard.py line
115): `TotalCost / (TotalCost + AvailableBudget) * 100`, with no guard on
the divisor. -/
def budgetUtilization (tc ab : ℚ) : ℚ :=
  tc / (tc + ab) * 100

/-- Utilization series plotted against the time steps: one value per
`(TotalCost, AvailableBudget)` row of the frame. -/
def budgetUtilizationSeries (steps : List (ℚ × ℚ)) : List ℚ :=
  steps.map (fun s => budgetUtilization s.1 s.2)

/-- C8: the budget-utilization series divides by the unguarded sum
`TotalCost + AvailableBudget`; when every step has nonnegative cost and
budget with positive sum, the divisor is never zero and every plotted
utilization value lies in `[0, 100]`. -/
theorem budget_utilization_bounds (steps : List (ℚ × ℚ))
    (h : ∀ s ∈ steps, 0 ≤ s.1 ∧ 0 ≤ s.2 ∧ 0 < s.1 + s.2) :
    (∀ s ∈ steps, s.1 + s.2 ≠ 0) ∧
    (∀ u ∈ budgetUtilizationSeries steps, 0 ≤ u ∧ u ≤ 100) := by
  constructor
  · intro s hs
    exact ne_of_gt (h s hs).2.2
  · intro u hu
    obtain ⟨s, hs, rfl⟩ := List.mem_map.1 hu
    obtain ⟨h1, h2, h3⟩ := h s hs
    unfold budgetUtilization
    constructor
    · exact mul_nonneg (div_nonneg h1 (le_of_lt h3)) (by norm_num)
    · have hle : s.1 / (s.1 + s.2) ≤ 1 := by
        rw [div_le_one h3]
        exact le_add_of_nonneg_right h2
      calc s.1 / (s.1 + s.2) * 100 ≤ 1 * 100 :=
            mul_le_mul_of_nonneg_right hle (by norm_num)
        _ = 100 := by norm_num

/-- Concrete instance of `budget_utilization_bounds`: one step of cost 0
and budget 1 satisfies the precondition and the plotted bounds. -/
theorem budget_utilization_bounds_witness :
    (∀ s ∈ ([((0 : ℚ), (1 : ℚ))] : List (ℚ × ℚ)),
      0 ≤ s.1 ∧ 0 ≤ s.2 ∧ 0 < s.1 + s.2) ∧
    ((∀ s ∈ ([((0 : ℚ), (1 : ℚ))] : List (ℚ × ℚ)), s.1 + s.2 ≠ 0) ∧
     (∀ u ∈ budgetUtilizationSeries [((0 : ℚ), (1 : ℚ))],
       0 ≤ u ∧ u ≤ 100)) :=
  ⟨by simp, budget_utilization_bounds [((0 : ℚ), (1 : ℚ))] (by simp)⟩

/-- A parameter value listed in `ParameterValues`, carrying its numeric
value alongside its Python string form `str(v)`, which the scripts use as
the lookup key. -/
structure PVal where
  str : String
  x : ℚ
deriving DecidableEq, Repr

/-- One entry of a `SensitivityResults` list, with the two per-parameter
collections optional: a missing key skips the plot for that parameter. -/
structure ParamResult where
  name : String
  paramValues : Option (List PVal)
  timeByValue : Option (List (String × ℚ))
deriving DecidableEq, Repr

/-- Python's `dict.get(key, default)` over a JSON-parsed object with
numeric values; JSON dicts have unique keys, so first-match lookup
agrees. -/
def pyDictGet (d : List (String × ℚ)) (k : String) (dflt : ℚ) : ℚ :=
  match d.lookup k with
  | some v => v
  | none => dflt

/-- Points plotted for one parameter by `plot_parameter_variations`
(plot_sensitivity.py lines 124-140), and identically by the dashboards
(plot_sensitivity.py lines 286-304, interactive_dashboard.py lines
227-243): when both keys are present, each listed value `v` is plotted
against `TimeToEquilibriumByValue.get(str(v), 0)`; otherwise the parameter
is skipped. -/
def seriesOf (pr : ParamResult) : List (ℚ × ℚ) :=
  match pr.paramValues, pr.timeByValue with
  | some pv, some tbv => pv.map (fun v => (v.x, pyDictGet tbv v.str 0))
  | _, _ => []

theorem lookup_eq_none_of_not_mem {β : Type} (d : List (String × β))
    (k : String) (h : k ∉ d.map Prod.fst) : d.lookup k = none := by
  induction d with
  | nil => rfl
  | cons a d ih =>
      have hk : (k == a.1) = false := by
        rw [beq_eq_false_iff_ne]
        intro he
        exact h (by rw [he]; simp)
      obtain ⟨a1, a2⟩ := a
      have hstep : List.lookup k ((a1, a2) :: d)
          = List.lookup k d := by
        simp only [List.lookup, hk]
      rw [hstep]
      exact ih (fun hm => h (List.mem_cons_of_mem _ hm))

/-- C9: a parameter value whose string form is not a key of
`TimeToEquilibriumByValue` is plotted with time-to-equilibrium 0: the
lookup silently defaults to zero instead of skipping or reporting the
value. -/
theorem variation_missing_key_defaults_zero (pr : ParamResult)
    (pv : List PVal) (tbv : List (String × ℚ)) (i : Nat)
    (h1 : pr.paramValues = some pv) (h2 : pr.timeByValue = some tbv)
    (hi : i < pv.length)
    (hk : (pv.getD i ⟨"", 0⟩).str ∉ tbv.map Prod.fst) :
    (seriesOf pr).getD i (0, 0) = ((pv.getD i ⟨"", 0⟩).x, 0) := by
  unfold seriesOf
  rw [h1, h2]
  rw [getD_map_lt _ pv i hi (0, 0) ⟨"", 0⟩]
  unfold pyDictGet
  rw [lookup_eq_none_of_not_mem tbv _ hk]

/-- Concrete instance of `variation_missing_key_defaults_zero`: value
`1.5` is absent from the lookup table, and the plotted point is
`(1.5, 0)`. -/
theorem variation_missing_key_defaults_zero_witness :
    ParamResult.paramValues
        (ParamResult.mk "p" (some [⟨"1.5", 3 / 2⟩]) (some [("2.0", 7)]))
      = some [⟨"1.5", 3 / 2⟩] ∧
    ParamResult.timeByValue
        (ParamResult.mk "p" (some [⟨"1.5", 3 / 2⟩]) (some [("2.0", 7)]))
      = some [("2.0", 7)] ∧
    0 < ([⟨"1.5", 3 / 2⟩] : List PVal).length ∧
    (([⟨"1.5", 3 / 2⟩] : List PVal).getD 0 ⟨"", 0⟩).str ∉
      ([("2.0", (7 : ℚ))].map Prod.fst) ∧
    (seriesOf (ParamResult.mk "p" (some [⟨"1.5", 3 / 2⟩])
        (some [("2.0", 7)]))).getD 0 (0, 0)
      = ((([⟨"1.5", 3 / 2⟩] : List PVal).getD 0 ⟨"", 0⟩).x, 0) :=
  ⟨rfl, rfl, by decide, by decide,
    variation_missing_key_defaults_zero
      (ParamResult.mk "p" (some [⟨"1.5", 3 / 2⟩]) (some [("2.0", 7)]))
      [⟨"1.5", 3 / 2⟩] [("2.0", 7)] 0 rfl rfl (by decide) (by decide)⟩

/-- Result of running `plot_parameter_rankings`: normal completion, the
`NameError` from the undefined `y_pos`, or the charting library's
shape-mismatch error. -/
inductive PlotRun where
  | ok
  | nameError
  | shapeMismatch
deriving DecidableEq, Repr

/-- Rankings entries carrying `TimeToEquilibriumImpact`, from which the
first chart builds `time_impacts`, `param_names` and `y_pos`
(plot_sensitivity.py lines 57-77). -/
def timeEntries (rankings : List SRanking) : List SRanking :=
  rankings.filter (fun r => r.timeImpact.isSome)

/-- Rankings entries carrying `WorkforceCompositionImpact`, from which the
second chart builds `comp_impacts` (lines 80-83). -/
def compEntries (rankings : List SRanking) : List SRanking :=
  rankings.filter (fun r => r.compImpact.isSome)

/-- Modelled from the charting library: `Axes.barh` broadcasts bar
positions and widths together via `np.broadcast_arrays`, so two lengths
are compatible exactly when they are equal or either is 1. -/
def barhBroadcastOk (n m : Nat) : Bool :=
  n == m || n == 1 || m == 1

/-- Embedding of the control flow of `plot_parameter_rankings`
(plot_sensitivity.py lines 46-101) for a present `ParameterRankings` list:
the first chart is drawn only when `time_impacts` is non-empty; the second
chart, drawn when `comp_impacts` is non-empty, reuses `y_pos` and
`param_names` built solely from the time entries, hitting the undefined
`y_pos` (`NameError`) when no time entry exists and a broadcast error when
the two lengths are incompatible.  Entries are assumed to carry
`ParameterName`, as all scripts do. -/
def plotParameterRankings (rankings : List SRanking) : PlotRun :=
  let ti := (timeEntries rankings).map (fun r => r.timeImpact.getD 0)
  let ci := (compEntries rankings).map (fun r => r.compImpact.getD 0)
  if ci.isEmpty then PlotRun.ok
  else if ti.isEmpty then PlotRun.nameError
  else if barhBroadcastOk ti.length ci.length then PlotRun.ok
  else PlotRun.shapeMismatch

/-- C10 counterexample: a rankings list whose single entry has a time
impact but no composition impact executes without error, yet the claimed
precondition (equal counts of the two kinds of entries) fails; error-free
execution therefore does not require the precondition. -/
theorem rankings_precondition_not_necessary :
    plotParameterRankings [⟨"a", some 1, none⟩] = PlotRun.ok ∧
    ¬((compEntries [⟨"a", some 1, none⟩]).length
        = (timeEntries [⟨"a", some 1, none⟩]).length ∧
      (compEntries [⟨"a", some 1, none⟩] ≠ [] →
        timeEntries [⟨"a", some 1, none⟩] ≠ [])) :=
  ⟨by decide, by decide⟩

/-- C10 as amended: `plot_parameter_rankings` completes without error
exactly when no entry carries a composition impact, or some entry carries
a time impact and the two counts can be broadcast together (equal, or
either count is 1); and a rankings list with composition impacts but no
time impacts reaches the undefined `y_pos` access. -/
theorem rankings_error_characterization (rankings : List SRanking) :
    (plotParameterRankings rankings = PlotRun.ok ↔
      ((compEntries rankings).length = 0 ∨
        ((timeEntries rankings).length ≠ 0 ∧
          ((timeEntries rankings).length = (compEntries rankings).length ∨
           (timeEntries rankings).length = 1 ∨
           (compEntries rankings).length = 1)))) ∧
    ((compEntries rankings) ≠ [] → (timeEntries rankings) = [] →
      plotParameterRankings rankings = PlotRun.nameError) := by
  have hred : plotParameterRankings rankings
      = (if ((compEntries rankings).map
            (fun r => r.compImpact.getD 0)).isEmpty then PlotRun.ok
        else if ((timeEntries rankings).map
            (fun r => r.timeImpact.getD 0)).isEmpty then PlotRun.nameError
        else if barhBroadcastOk
            ((timeEntries rankings).map (fun r => r.timeImpact.getD 0)).length
            ((compEntries rankings).map (fun r => r.compImpact.getD 0)).length
          then PlotRun.ok
        else PlotRun.shapeMismatch) := rfl
  constructor
  · rw [hred]
    split_ifs with h1 h2 h3
    · have hc0 : (compEntries rankings).length = 0 := by
        rw [List.isEmpty_iff] at h1
        simpa using congrArg List.length h1
      simp [hc0]
    · have hcne : (compEntries rankings).length ≠ 0 := by
        intro hh
        apply h1
        rw [List.isEmpty_iff, List.map_eq_nil_iff]
        exact List.length_eq_zero.1 hh
      have ht0 : (timeEntries rankings).length = 0 := by
        rw [List.isEmpty_iff] at h2
        simpa using congrArg List.length h2
      simp [hcne, ht0]
    · have htne : (timeEntries rankings).length ≠ 0 := by
        intro hh
        apply h2
        rw [List.isEmpty_iff, List.map_eq_nil_iff]
        exact List.length_eq_zero.1 hh
      have hb : ((timeEntries rankings).length = (compEntries rankings).length
          ∨ (timeEntries rankings).length = 1
          ∨ (compEntries rankings).length = 1) := by
        unfold barhBroadcastOk at h3
        simpa [or_assoc] using h3
      simp [htne, hb]
    · have hb : ¬((timeEntries rankings).length
            = (compEntries rankings).length
          ∨ (timeEntries rankings).length = 1
          ∨ (compEntries rankings).length = 1) := by
        unfold barhBroadcastOk at h3
        simpa [not_or, and_assoc] using h3
      have hcne : (compEntries rankings).length ≠ 0 := by
        intro hh
        apply h1
        rw [List.isEmpty_iff, List.map_eq_nil_iff]
        exact List.length_eq_zero.1 hh
      simp [hcne, hb]
  · intro hc ht
    rw [hred]
    rw [if_neg (by simpa [List.isEmpty_iff, List.map_eq_nil_iff] using hc)]
    rw [if_pos (by simp [List.isEmpty_iff, List.map_eq_nil_iff, ht])]

/-- Concrete instance of `rankings_error_characterization`: one entry with
only a composition impact makes the run hit the undefined `y_pos`. -/
theorem rankings_error_characterization_witness :
    compEntries [⟨"a", none, some 1⟩] ≠ [] ∧
    timeEntries [⟨"a", none, some 1⟩] = [] ∧
    plotParameterRankings [⟨"a", none, some 1⟩] = PlotRun.nameError :=
  ⟨by decide, by decide,
    (rankings_error_characterization [⟨"a", none, some 1⟩]).2
      (by decide) (by decide)⟩
